import Mathlib

/-!
Verification of the SignConnect client against its specification.

The definitions below are a shallow embedding of the TypeScript sources:
feature extraction and audio playback (client/src/lib/audioPlayer.ts),
PCM conversion (client/src/lib/audioCapture.ts), the ASL classifier
result assembly (client/src/lib/aslClassifier.ts), and the WebSocket
message handler (wsClient).  JavaScript numbers are modelled as real
numbers, probabilities from the external model as rationals.
-/

namespace SignConnect

/-! Landmarks and geometry helpers, from audioPlayer.ts (feature extraction). -/

/-- A MediaPipe hand landmark: a 3D point. -/
structure Landmark where
  x : ℝ
  y : ℝ
  z : ℝ

/-- Landmark indices, as in the source constants. -/
def WRIST : Nat := 0
def THUMB_CMC : Nat := 1
def THUMB_MCP : Nat := 2
def THUMB_IP : Nat := 3
def THUMB_TIP : Nat := 4
def INDEX_MCP : Nat := 5
def INDEX_PIP : Nat := 6
def INDEX_DIP : Nat := 7
def INDEX_TIP : Nat := 8
def MIDDLE_MCP : Nat := 9
def MIDDLE_PIP : Nat := 10
def MIDDLE_DIP : Nat := 11
def MIDDLE_TIP : Nat := 12
def RING_MCP : Nat := 13
def RING_PIP : Nat := 14
def RING_DIP : Nat := 15
def RING_TIP : Nat := 16
def PINKY_MCP : Nat := 17
def PINKY_PIP : Nat := 18
def PINKY_DIP : Nat := 19
def PINKY_TIP : Nat := 20

/-- Finger landmark chains, as in the FINGERS constant of the source. -/
def FINGERS_thumb : List Nat := [THUMB_CMC, THUMB_MCP, THUMB_IP, THUMB_TIP]
def FINGERS_index : List Nat := [INDEX_MCP, INDEX_PIP, INDEX_DIP, INDEX_TIP]
def FINGERS_middle : List Nat := [MIDDLE_MCP, MIDDLE_PIP, MIDDLE_DIP, MIDDLE_TIP]
def FINGERS_ring : List Nat := [RING_MCP, RING_PIP, RING_DIP, RING_TIP]
def FINGERS_pinky : List Nat := [PINKY_MCP, PINKY_PIP, PINKY_DIP, PINKY_TIP]

/-- Array indexing, landmarks i in the source (all uses are in bounds). -/
def lget (l : List Landmark) (i : Nat) : Landmark :=
  l.getD i ⟨0, 0, 0⟩

/-- Euclidean distance between two landmarks (function distance). -/
noncomputable def distance (a b : Landmark) : ℝ :=
  Real.sqrt ((a.x - b.x) ^ 2 + (a.y - b.y) ^ 2 + (a.z - b.z) ^ 2)

/-- 2D vector magnitude, as computed for magAB and magCB in function angle. -/
noncomputable def mag (dx dy : ℝ) : ℝ :=
  Real.sqrt (dx ^ 2 + dy ^ 2)

/-- Angle between three points in radians (function angle); returns 0 when
either bounding vector has zero magnitude, and clamps the cosine to the
domain of arccos. -/
noncomputable def angle (a b c : Landmark) : ℝ :=
  if mag (a.x - b.x) (a.y - b.y) = 0 ∨ mag (c.x - b.x) (c.y - b.y) = 0 then 0
  else
    Real.arccos (max (-1) (min 1
      (((a.x - b.x) * (c.x - b.x) + (a.y - b.y) * (c.y - b.y)) /
        (mag (a.x - b.x) (a.y - b.y) * mag (c.x - b.x) (c.y - b.y)))))

/-- JavaScript d or-else fallback on a number: 0 is falsy, so d or-else f
is f when d = 0 and d otherwise. -/
noncomputable def orD (d fallback : ℝ) : ℝ :=
  if d = 0 then fallback else d

/-- Finger curl (function calculateFingerCurl): average of the two joint
angles, normalized by pi and clamped to the unit interval. -/
noncomputable def calculateFingerCurl (landmarks : List Landmark) (fingerIndices : List Nat) : ℝ :=
  if fingerIndices.length < 4 then 0
  else
    let mcp := lget landmarks (fingerIndices.getD 0 0)
    let pip := lget landmarks (fingerIndices.getD 1 0)
    let dip := lget landmarks (fingerIndices.getD 2 0)
    let tip := lget landmarks (fingerIndices.getD 3 0)
    let pipAngle := angle mcp pip dip
    let dipAngle := angle pip dip tip
    let avgAngle := (pipAngle + dipAngle) / 2
    let curl := 1 - avgAngle / Real.pi
    max 0 (min 1 curl)

/-- The reference scale of normalizeLandmarks: wrist-to-middle-MCP distance
with fallback 1. -/
noncomputable def normRefScale (landmarks : List Landmark) : ℝ :=
  orD (distance (lget landmarks WRIST) (lget landmarks MIDDLE_MCP)) 1

/-- The fingertip-distance divisor maxDist in extractFeatures:
wrist-to-middle-fingertip distance with fallback 1. -/
noncomputable def tipRefScale (landmarks : List Landmark) : ℝ :=
  orD (distance (lget landmarks WRIST) (lget landmarks MIDDLE_TIP)) 1

/-- The finger-spread divisor refDist in extractFeatures:
index-MCP-to-pinky-MCP distance with fallback 1. -/
noncomputable def spreadRefScale (landmarks : List Landmark) : ℝ :=
  orD (distance (lget landmarks INDEX_MCP) (lget landmarks PINKY_MCP)) 1

/-- Normalize landmarks relative to wrist and hand size
(function normalizeLandmarks). -/
noncomputable def normalizeLandmarks (landmarks : List Landmark) : List Landmark :=
  let wrist := lget landmarks WRIST
  landmarks.map (fun p =>
    ⟨(p.x - wrist.x) / normRefScale landmarks,
     (p.y - wrist.y) / normRefScale landmarks,
     p.z / normRefScale landmarks⟩)

/-- Palm orientation categories. -/
inductive PalmFacing
  | camera
  | away
  | side
deriving DecidableEq

/-- Thumb position categories. -/
inductive ThumbPos
  | extended
  | across
  | tucked
deriving DecidableEq

/-- Palm orientation from mean z of three palm landmarks
(function getPalmOrientation). -/
noncomputable def getPalmOrientation (landmarks : List Landmark) : PalmFacing :=
  let avgPalmZ := ((lget landmarks WRIST).z + (lget landmarks MIDDLE_MCP).z +
    (lget landmarks INDEX_MCP).z) / 3
  if avgPalmZ < -0.05 then .camera
  else if avgPalmZ > 0.05 then .away
  else .side

/-- Distance from the thumb tip to the palm center (midpoint of index and
pinky MCPs), the thumbToCenter quantity of getThumbPosition. -/
noncomputable def thumbToCenter (landmarks : List Landmark) : ℝ :=
  Real.sqrt
    (((lget landmarks THUMB_TIP).x -
        ((lget landmarks INDEX_MCP).x + (lget landmarks PINKY_MCP).x) / 2) ^ 2 +
     ((lget landmarks THUMB_TIP).y -
        ((lget landmarks INDEX_MCP).y + (lget landmarks PINKY_MCP).y) / 2) ^ 2)

/-- Horizontal offset of the thumb tip from the hand center (midpoint of
wrist x and index-MCP x), as computed in getThumbPosition. -/
noncomputable def thumbHandOffset (landmarks : List Landmark) : ℝ :=
  |(lget landmarks THUMB_TIP).x -
    ((lget landmarks WRIST).x + (lget landmarks INDEX_MCP).x) / 2|

/-- Thumb position classification (function getThumbPosition). -/
noncomputable def getThumbPosition (landmarks : List Landmark) : ThumbPos :=
  if thumbToCenter landmarks < 0.08 then .tucked
  else if thumbHandOffset landmarks < 0.05 then .across
  else .extended

/-- Five per-finger values; used both for curls and fingertip distances,
as in the HandFeatures interface. -/
structure FiveVals where
  thumb : ℝ
  index : ℝ
  middle : ℝ
  ring : ℝ
  pinky : ℝ

/-- The four adjacent tip-to-tip spreads of the HandFeatures interface. -/
structure SpreadVals where
  thumbIndex : ℝ
  indexMiddle : ℝ
  middleRing : ℝ
  ringPinky : ℝ

/-- The HandFeatures record produced by extractFeatures. -/
structure HandFeatures where
  fingerCurls : FiveVals
  fingertipDistances : FiveVals
  fingerSpread : SpreadVals
  palmFacing : PalmFacing
  thumbPosition : ThumbPos
  fingersSpread : Bool
  normalizedLandmarks : List Landmark

/-- The feature record built by the body of extractFeatures once the
21-point check has passed. -/
noncomputable def mkFeatures (landmarks : List Landmark) : HandFeatures :=
  { fingerCurls :=
      { thumb := calculateFingerCurl landmarks FINGERS_thumb
        index := calculateFingerCurl landmarks FINGERS_index
        middle := calculateFingerCurl landmarks FINGERS_middle
        ring := calculateFingerCurl landmarks FINGERS_ring
        pinky := calculateFingerCurl landmarks FINGERS_pinky }
    fingertipDistances :=
      { thumb := distance (lget landmarks WRIST) (lget landmarks THUMB_TIP) / tipRefScale landmarks
        index := distance (lget landmarks WRIST) (lget landmarks INDEX_TIP) / tipRefScale landmarks
        middle := distance (lget landmarks WRIST) (lget landmarks MIDDLE_TIP) / tipRefScale landmarks
        ring := distance (lget landmarks WRIST) (lget landmarks RING_TIP) / tipRefScale landmarks
        pinky := distance (lget landmarks WRIST) (lget landmarks PINKY_TIP) / tipRefScale landmarks }
    fingerSpread :=
      { thumbIndex := distance (lget landmarks THUMB_TIP) (lget landmarks INDEX_TIP) / spreadRefScale landmarks
        indexMiddle := distance (lget landmarks INDEX_TIP) (lget landmarks MIDDLE_TIP) / spreadRefScale landmarks
        middleRing := distance (lget landmarks MIDDLE_TIP) (lget landmarks RING_TIP) / spreadRefScale landmarks
        ringPinky := distance (lget landmarks RING_TIP) (lget landmarks PINKY_TIP) / spreadRefScale landmarks }
    palmFacing := getPalmOrientation landmarks
    thumbPosition := getThumbPosition landmarks
    fingersSpread :=
      decide (((distance (lget landmarks INDEX_TIP) (lget landmarks MIDDLE_TIP) / spreadRefScale landmarks) +
        (distance (lget landmarks MIDDLE_TIP) (lget landmarks RING_TIP) / spreadRefScale landmarks) +
        (distance (lget landmarks RING_TIP) (lget landmarks PINKY_TIP) / spreadRefScale landmarks)) / 3 > 0.4)
    normalizedLandmarks := normalizeLandmarks landmarks }

/-- Extract all features from hand landmarks (function extractFeatures):
null unless exactly 21 points are given. -/
noncomputable def extractFeatures (landmarks : List Landmark) : Option HandFeatures :=
  if landmarks.length ≠ 21 then none
  else some (mkFeatures landmarks)

/-- The thumbIndex finger-spread component of the extracted features, when
extraction succeeds. -/
noncomputable def spreadThumbIndexOf (landmarks : List Landmark) : Option ℝ :=
  (extractFeatures landmarks).map (fun f => f.fingerSpread.thumbIndex)

/-! Basic facts about the geometry helpers. -/

lemma distance_nonneg (a b : Landmark) : 0 ≤ distance a b :=
  Real.sqrt_nonneg _

lemma orD_one_pos {d : ℝ} (hd : 0 ≤ d) : 0 < orD d 1 := by
  unfold orD
  split
  · norm_num
  · rename_i hne
    exact lt_of_le_of_ne hd (fun he => hne he.symm)

lemma normRefScale_pos (l : List Landmark) : 0 < normRefScale l :=
  orD_one_pos (distance_nonneg _ _)

lemma tipRefScale_pos (l : List Landmark) : 0 < tipRefScale l :=
  orD_one_pos (distance_nonneg _ _)

lemma spreadRefScale_pos (l : List Landmark) : 0 < spreadRefScale l :=
  orD_one_pos (distance_nonneg _ _)

lemma calculateFingerCurl_mem_unit (l : List Landmark) (fi : List Nat) :
    0 ≤ calculateFingerCurl l fi ∧ calculateFingerCurl l fi ≤ 1 := by
  unfold calculateFingerCurl
  split
  · norm_num
  · constructor
    · exact le_max_left _ _
    · exact max_le zero_le_one (min_le_left _ _)

lemma extractFeatures_eq_some {l : List Landmark} (h : l.length = 21) :
    extractFeatures l = some (mkFeatures l) := by
  unfold extractFeatures
  simp [h]

lemma eq_mkFeatures_of_extractFeatures {l : List Landmark} {f : HandFeatures}
    (h : extractFeatures l = some f) : f = mkFeatures l := by
  unfold extractFeatures at h
  by_cases h21 : l.length = 21
  · simpa [h21, eq_comm] using h
  · simp [h21] at h

lemma length_of_extractFeatures {l : List Landmark} {f : HandFeatures}
    (h : extractFeatures l = some f) : l.length = 21 := by
  unfold extractFeatures at h
  by_cases h21 : l.length = 21
  · exact h21
  · simp [h21] at h

lemma distance_self (a : Landmark) : distance a a = 0 := by
  unfold distance
  rw [show (a.x - a.x) ^ 2 + (a.y - a.y) ^ 2 + (a.z - a.z) ^ 2 = 0 by ring]
  exact Real.sqrt_zero

lemma sqrt_four : Real.sqrt 4 = 2 := by
  rw [show (4 : ℝ) = 2 ^ 2 by norm_num, Real.sqrt_sq (by norm_num)]

/-- The spec formula for finger curl: one minus the average of the two joint
angles divided by pi, clamped to the unit interval. -/
noncomputable def specCurl (a b c d : Landmark) : ℝ :=
  max 0 (min 1 (1 - ((angle a b c + angle b c d) / 2) / Real.pi))

/-- The spec formula for the thumb-position category: tucked when the
thumb-tip-to-palm-center distance is below 0.08, otherwise across when the
horizontal offset of the thumb tip from the hand center is below 0.05,
otherwise extended. -/
noncomputable def specThumbPosition (landmarks : List Landmark) : ThumbPos :=
  if thumbToCenter landmarks < 0.08 then .tucked
  else if thumbHandOffset landmarks < 0.05 then .across
  else .extended

lemma calculateFingerCurl_quad (l : List Landmark) (i1 i2 i3 i4 : Nat) :
    calculateFingerCurl l [i1, i2, i3, i4] =
      specCurl (lget l i1) (lget l i2) (lget l i3) (lget l i4) := by
  unfold calculateFingerCurl specCurl
  norm_num [List.getD]

/-! Concrete inputs used to instantiate the theorems. -/

/-- A degenerate frame: all 21 points coincide at the origin. -/
def degenerateFrame : List Landmark :=
  List.replicate 21 ⟨0, 0, 0⟩

/-- A 21-point frame whose thumb tip is far from its index tip while the
index and pinky MCPs coincide, so the normalized thumb-index spread is 2. -/
def wideThumbFrame : List Landmark :=
  [⟨0, 0, 0⟩, ⟨0, 0, 0⟩, ⟨0, 0, 0⟩, ⟨0, 0, 0⟩, ⟨2, 0, 0⟩,
   ⟨0, 0, 0⟩, ⟨0, 0, 0⟩, ⟨0, 0, 0⟩, ⟨0, 0, 0⟩, ⟨0, 0, 0⟩,
   ⟨0, 0, 0⟩, ⟨0, 0, 0⟩, ⟨0, 0, 0⟩, ⟨0, 0, 0⟩, ⟨0, 0, 0⟩,
   ⟨0, 0, 0⟩, ⟨0, 0, 0⟩, ⟨0, 0, 0⟩, ⟨0, 0, 0⟩, ⟨0, 0, 0⟩,
   ⟨0, 0, 0⟩]

/-- A 21-point frame whose middle fingertip is at unit distance from the
wrist, all other points at the origin. -/
def unitMiddleFrame : List Landmark :=
  [⟨0, 0, 0⟩, ⟨0, 0, 0⟩, ⟨0, 0, 0⟩, ⟨0, 0, 0⟩, ⟨0, 0, 0⟩,
   ⟨0, 0, 0⟩, ⟨0, 0, 0⟩, ⟨0, 0, 0⟩, ⟨0, 0, 0⟩, ⟨0, 0, 0⟩,
   ⟨0, 0, 0⟩, ⟨0, 0, 0⟩, ⟨1, 0, 0⟩, ⟨0, 0, 0⟩, ⟨0, 0, 0⟩,
   ⟨0, 0, 0⟩, ⟨0, 0, 0⟩, ⟨0, 0, 0⟩, ⟨0, 0, 0⟩, ⟨0, 0, 0⟩,
   ⟨0, 0, 0⟩]

/-- A generic valid frame with all points at the same nonzero location. -/
def constFrame1 : List Landmark :=
  List.replicate 21 ⟨1, 0, 0⟩

/-- A second generic valid frame. -/
def constFrame2 : List Landmark :=
  List.replicate 21 ⟨0, 1, 0⟩

/-- A third generic valid frame. -/
def constFrame3 : List Landmark :=
  List.replicate 21 ⟨0, 0, 1⟩

/-! Claim C3: extractFeatures is null exactly off 21 points, total on
21-point inputs, and deterministic. -/

/-- C3: the feature extractor returns null if and only if the input does not
have exactly 21 points; on every 21-point input it returns a feature record;
and it is deterministic: equal inputs give equal outputs (the embedding is a
pure function, so the code performs no state mutation). -/
theorem extractFeatures_none_iff (l1 l2 : List Landmark) (h : l1 = l2) :
    (extractFeatures l1 = none ↔ l1.length ≠ 21) ∧
    ((extractFeatures l1).isSome ↔ l1.length = 21) ∧
    extractFeatures l1 = extractFeatures l2 := by
  subst h
  refine ⟨?_, ?_, rfl⟩ <;>
    · unfold extractFeatures
      by_cases h21 : l1.length = 21 <;> simp [h21]

/-- Witness for C3 at a concrete 21-point frame. -/
theorem extractFeatures_none_iff_witness :
    (extractFeatures constFrame1 = none ↔ constFrame1.length ≠ 21) ∧
    ((extractFeatures constFrame1).isSome ↔ constFrame1.length = 21) ∧
    extractFeatures constFrame1 = extractFeatures constFrame1 :=
  extractFeatures_none_iff constFrame1 constFrame1 rfl

/-! Claim C4: the extracted curls follow the spec formula. -/

/-- C4: for every input accepted by the feature extractor, each finger's
curl equals one minus the average of the angle at its first interior joint
and the angle at its second interior joint divided by pi, clamped to the
unit interval (for the thumb the four chain points are CMC, MCP, IP, TIP). -/
theorem fingerCurls_follow_spec (l : List Landmark) (f : HandFeatures)
    (h : extractFeatures l = some f) :
    f.fingerCurls.thumb =
      specCurl (lget l THUMB_CMC) (lget l THUMB_MCP) (lget l THUMB_IP) (lget l THUMB_TIP) ∧
    f.fingerCurls.index =
      specCurl (lget l INDEX_MCP) (lget l INDEX_PIP) (lget l INDEX_DIP) (lget l INDEX_TIP) ∧
    f.fingerCurls.middle =
      specCurl (lget l MIDDLE_MCP) (lget l MIDDLE_PIP) (lget l MIDDLE_DIP) (lget l MIDDLE_TIP) ∧
    f.fingerCurls.ring =
      specCurl (lget l RING_MCP) (lget l RING_PIP) (lget l RING_DIP) (lget l RING_TIP) ∧
    f.fingerCurls.pinky =
      specCurl (lget l PINKY_MCP) (lget l PINKY_PIP) (lget l PINKY_DIP) (lget l PINKY_TIP) := by
  rw [eq_mkFeatures_of_extractFeatures h]
  exact ⟨calculateFingerCurl_quad l _ _ _ _, calculateFingerCurl_quad l _ _ _ _,
    calculateFingerCurl_quad l _ _ _ _, calculateFingerCurl_quad l _ _ _ _,
    calculateFingerCurl_quad l _ _ _ _⟩

/-- Witness for C4 at a concrete 21-point frame. -/
theorem fingerCurls_follow_spec_witness :
    (mkFeatures constFrame2).fingerCurls.thumb =
      specCurl (lget constFrame2 THUMB_CMC) (lget constFrame2 THUMB_MCP)
        (lget constFrame2 THUMB_IP) (lget constFrame2 THUMB_TIP) ∧
    (mkFeatures constFrame2).fingerCurls.index =
      specCurl (lget constFrame2 INDEX_MCP) (lget constFrame2 INDEX_PIP)
        (lget constFrame2 INDEX_DIP) (lget constFrame2 INDEX_TIP) ∧
    (mkFeatures constFrame2).fingerCurls.middle =
      specCurl (lget constFrame2 MIDDLE_MCP) (lget constFrame2 MIDDLE_PIP)
        (lget constFrame2 MIDDLE_DIP) (lget constFrame2 MIDDLE_TIP) ∧
    (mkFeatures constFrame2).fingerCurls.ring =
      specCurl (lget constFrame2 RING_MCP) (lget constFrame2 RING_PIP)
        (lget constFrame2 RING_DIP) (lget constFrame2 RING_TIP) ∧
    (mkFeatures constFrame2).fingerCurls.pinky =
      specCurl (lget constFrame2 PINKY_MCP) (lget constFrame2 PINKY_PIP)
        (lget constFrame2 PINKY_DIP) (lget constFrame2 PINKY_TIP) :=
  fingerCurls_follow_spec constFrame2 (mkFeatures constFrame2)
    (extractFeatures_eq_some (l := constFrame2) rfl)

/-! Claim C5: the extracted thumb position follows the spec decision order. -/

/-- C5: for every input accepted by the feature extractor, the thumb-position
category is tucked when the thumb-tip-to-palm-center distance is below 0.08,
otherwise across when the horizontal offset of the thumb tip from the hand
center is below 0.05, otherwise extended; the tucked test takes priority. -/
theorem thumbPosition_follows_spec (l : List Landmark) (f : HandFeatures)
    (h : extractFeatures l = some f) :
    f.thumbPosition = specThumbPosition l := by
  rw [eq_mkFeatures_of_extractFeatures h]
  rfl

/-- Witness for C5 at a concrete 21-point frame. -/
theorem thumbPosition_follows_spec_witness :
    (mkFeatures constFrame3).thumbPosition = specThumbPosition constFrame3 :=
  thumbPosition_follows_spec constFrame3 (mkFeatures constFrame3)
    (extractFeatures_eq_some (l := constFrame3) rfl)

/-! Claim C1: curls are in the unit interval; spreads are only nonnegative,
and can exceed 1 (counterexample below). -/

/-- Counterexample to C1 as stated: on a valid 21-point frame the extracted
thumb-index spread is 2, outside the unit interval. -/
theorem spread_exceeds_unit_cex :
    spreadThumbIndexOf wideThumbFrame = some 2 ∧ ¬((2 : ℝ) ≤ 1) := by
  refine ⟨?_, by norm_num⟩
  unfold spreadThumbIndexOf
  rw [extractFeatures_eq_some (l := wideThumbFrame) rfl, Option.map_some']
  have h1 : distance (lget wideThumbFrame THUMB_TIP) (lget wideThumbFrame INDEX_TIP) = 2 := by
    show Real.sqrt (((2 : ℝ) - 0) ^ 2 + ((0 : ℝ) - 0) ^ 2 + ((0 : ℝ) - 0) ^ 2) = 2
    rw [show ((2 : ℝ) - 0) ^ 2 + ((0 : ℝ) - 0) ^ 2 + ((0 : ℝ) - 0) ^ 2 = 4 by norm_num]
    exact sqrt_four
  have h2 : spreadRefScale wideThumbFrame = 1 := by
    show orD (distance (lget wideThumbFrame INDEX_MCP) (lget wideThumbFrame PINKY_MCP)) 1 = 1
    rw [show lget wideThumbFrame INDEX_MCP = lget wideThumbFrame PINKY_MCP from rfl,
      distance_self]
    unfold orD
    simp
  show some (distance (lget wideThumbFrame THUMB_TIP) (lget wideThumbFrame INDEX_TIP) /
    spreadRefScale wideThumbFrame) = some 2
  rw [h1, h2]
  norm_num

/-- C1 amended: for every input accepted by the feature extractor, each of
the five finger curls lies in the unit interval, and each of the four
tip-to-tip spreads is nonnegative (spreads are not bounded above by 1). -/
theorem curls_unit_spreads_nonneg (l : List Landmark) (f : HandFeatures)
    (h : extractFeatures l = some f) :
    (0 ≤ f.fingerCurls.thumb ∧ f.fingerCurls.thumb ≤ 1) ∧
    (0 ≤ f.fingerCurls.index ∧ f.fingerCurls.index ≤ 1) ∧
    (0 ≤ f.fingerCurls.middle ∧ f.fingerCurls.middle ≤ 1) ∧
    (0 ≤ f.fingerCurls.ring ∧ f.fingerCurls.ring ≤ 1) ∧
    (0 ≤ f.fingerCurls.pinky ∧ f.fingerCurls.pinky ≤ 1) ∧
    0 ≤ f.fingerSpread.thumbIndex ∧
    0 ≤ f.fingerSpread.indexMiddle ∧
    0 ≤ f.fingerSpread.middleRing ∧
    0 ≤ f.fingerSpread.ringPinky := by
  rw [eq_mkFeatures_of_extractFeatures h]
  simp only [mkFeatures]
  exact ⟨calculateFingerCurl_mem_unit l _, calculateFingerCurl_mem_unit l _,
    calculateFingerCurl_mem_unit l _, calculateFingerCurl_mem_unit l _,
    calculateFingerCurl_mem_unit l _,
    div_nonneg (distance_nonneg _ _) (spreadRefScale_pos l).le,
    div_nonneg (distance_nonneg _ _) (spreadRefScale_pos l).le,
    div_nonneg (distance_nonneg _ _) (spreadRefScale_pos l).le,
    div_nonneg (distance_nonneg _ _) (spreadRefScale_pos l).le⟩

/-- Witness for the amended C1 at a concrete 21-point frame. -/
theorem curls_unit_spreads_nonneg_witness :
    (0 ≤ (mkFeatures degenerateFrame).fingerCurls.thumb ∧
      (mkFeatures degenerateFrame).fingerCurls.thumb ≤ 1) ∧
    (0 ≤ (mkFeatures degenerateFrame).fingerCurls.index ∧
      (mkFeatures degenerateFrame).fingerCurls.index ≤ 1) ∧
    (0 ≤ (mkFeatures degenerateFrame).fingerCurls.middle ∧
      (mkFeatures degenerateFrame).fingerCurls.middle ≤ 1) ∧
    (0 ≤ (mkFeatures degenerateFrame).fingerCurls.ring ∧
      (mkFeatures degenerateFrame).fingerCurls.ring ≤ 1) ∧
    (0 ≤ (mkFeatures degenerateFrame).fingerCurls.pinky ∧
      (mkFeatures degenerateFrame).fingerCurls.pinky ≤ 1) ∧
    0 ≤ (mkFeatures degenerateFrame).fingerSpread.thumbIndex ∧
    0 ≤ (mkFeatures degenerateFrame).fingerSpread.indexMiddle ∧
    0 ≤ (mkFeatures degenerateFrame).fingerSpread.middleRing ∧
    0 ≤ (mkFeatures degenerateFrame).fingerSpread.ringPinky :=
  curls_unit_spreads_nonneg degenerateFrame (mkFeatures degenerateFrame)
    (extractFeatures_eq_some (l := degenerateFrame) rfl)

/-! Claim C8: extraction is total, divisors fall back to 1, the joint angle
is guarded. -/

/-- C8: feature extraction succeeds on every 21-point frame, including
degenerate ones; each of the three normalizing divisors is positive and
falls back to 1 when the underlying distance is zero; and the joint-angle
function returns 0 when either bounding vector has zero magnitude and
always yields a value between 0 and pi. -/
theorem extraction_total_and_guarded (l : List Landmark) (h : l.length = 21) :
    (extractFeatures l).isSome ∧
    0 < normRefScale l ∧ 0 < tipRefScale l ∧ 0 < spreadRefScale l ∧
    (distance (lget l WRIST) (lget l MIDDLE_MCP) = 0 → normRefScale l = 1) ∧
    (distance (lget l WRIST) (lget l MIDDLE_TIP) = 0 → tipRefScale l = 1) ∧
    (distance (lget l INDEX_MCP) (lget l PINKY_MCP) = 0 → spreadRefScale l = 1) ∧
    (∀ a b c : Landmark,
      mag (a.x - b.x) (a.y - b.y) = 0 ∨ mag (c.x - b.x) (c.y - b.y) = 0 →
        angle a b c = 0) ∧
    (∀ a b c : Landmark, 0 ≤ angle a b c ∧ angle a b c ≤ Real.pi) := by
  refine ⟨by rw [extractFeatures_eq_some h]; rfl,
    normRefScale_pos l, tipRefScale_pos l, spreadRefScale_pos l,
    ?_, ?_, ?_, ?_, ?_⟩
  · intro hz
    unfold normRefScale orD
    rw [if_pos hz]
  · intro hz
    unfold tipRefScale orD
    rw [if_pos hz]
  · intro hz
    unfold spreadRefScale orD
    rw [if_pos hz]
  · intro a b c hz
    unfold angle
    rw [if_pos hz]
  · intro a b c
    unfold angle
    split
    · exact ⟨le_refl 0, Real.pi_pos.le⟩
    · exact ⟨Real.arccos_nonneg _, Real.arccos_le_pi _⟩

/-- Witness for C8 at the all-coincident degenerate frame. -/
theorem extraction_total_and_guarded_witness :
    degenerateFrame.length = 21 ∧
    ((extractFeatures degenerateFrame).isSome ∧
    0 < normRefScale degenerateFrame ∧ 0 < tipRefScale degenerateFrame ∧
    0 < spreadRefScale degenerateFrame ∧
    (distance (lget degenerateFrame WRIST) (lget degenerateFrame MIDDLE_MCP) = 0 →
      normRefScale degenerateFrame = 1) ∧
    (distance (lget degenerateFrame WRIST) (lget degenerateFrame MIDDLE_TIP) = 0 →
      tipRefScale degenerateFrame = 1) ∧
    (distance (lget degenerateFrame INDEX_MCP) (lget degenerateFrame PINKY_MCP) = 0 →
      spreadRefScale degenerateFrame = 1) ∧
    (∀ a b c : Landmark,
      mag (a.x - b.x) (a.y - b.y) = 0 ∨ mag (c.x - b.x) (c.y - b.y) = 0 →
        angle a b c = 0) ∧
    (∀ a b c : Landmark, 0 ≤ angle a b c ∧ angle a b c ≤ Real.pi)) :=
  ⟨rfl, extraction_total_and_guarded degenerateFrame rfl⟩

/-! Claim C10: the middle fingertip distance feature is constantly 1 when
its normalizer is nonzero. -/

/-- C10: for every input accepted by the feature extractor whose
wrist-to-middle-fingertip distance is nonzero, the extracted middle
fingertip distance equals exactly 1, because it is normalized by that same
distance. -/
theorem middle_tip_distance_one (l : List Landmark) (f : HandFeatures)
    (h : extractFeatures l = some f)
    (hnz : distance (lget l WRIST) (lget l MIDDLE_TIP) ≠ 0) :
    f.fingertipDistances.middle = 1 := by
  rw [eq_mkFeatures_of_extractFeatures h]
  show distance (lget l WRIST) (lget l MIDDLE_TIP) / tipRefScale l = 1
  unfold tipRefScale orD
  rw [if_neg hnz]
  exact div_self hnz

/-- Witness for C10 at a frame whose middle fingertip is at unit distance
from the wrist. -/
theorem middle_tip_distance_one_witness :
    (mkFeatures unitMiddleFrame).fingertipDistances.middle = 1 :=
  middle_tip_distance_one unitMiddleFrame (mkFeatures unitMiddleFrame)
    (extractFeatures_eq_some (l := unitMiddleFrame) rfl)
    (by
      show Real.sqrt (((0 : ℝ) - 1) ^ 2 + ((0 : ℝ) - 0) ^ 2 + ((0 : ℝ) - 0) ^ 2) ≠ 0
      rw [show ((0 : ℝ) - 1) ^ 2 + ((0 : ℝ) - 0) ^ 2 + ((0 : ℝ) - 0) ^ 2 = 1 by norm_num,
        Real.sqrt_one]
      norm_num)

/-! Audio player (class AudioPlayer in audioPlayer.ts).  A chunk is the
byte content of an audio buffer.  Method playNext is asynchronous: it
clears the queue into a combined buffer and then awaits
decodeAudioData, so between the synchronous prefix and the decode
continuation other events (more chunks, a stop) can be handled; the
state therefore carries the combined buffers whose decode is in flight. -/

/-- Decoded audio bytes of one chunk. -/
abbrev Chunk := List Nat

/-- The mutable fields of the AudioPlayer class, plus the combined buffers
sitting in pending, not yet resolved decodeAudioData calls (their
continuations are in flight and cannot be cancelled by stop). -/
structure PlayerState where
  audioQueue : List Chunk
  isPlaying : Bool
  currentSource : Option Chunk
  pendingDecodes : List Chunk
deriving DecidableEq

/-- The synchronous prefix of method playNext, up to the await on
decodeAudioData: when the queue is nonempty, mark playback active, combine
all queued chunks into one buffer (combineBuffers), clear the queue and
hand the buffer to decodeAudioData. -/
def playNextStart (s : PlayerState) : PlayerState :=
  if s.audioQueue = [] then { s with isPlaying := false }
  else
    { s with
      isPlaying := true
      audioQueue := []
      pendingDecodes := s.pendingDecodes ++ [s.audioQueue.flatten] }

/-- A pending decodeAudioData resolves: the continuation of playNext runs
unconditionally, setting the current source and starting playback of the
decoded buffer.  The second component lists the buffers handed to the
audio output. -/
def decodeOk (s : PlayerState) : PlayerState × List Chunk :=
  match s.pendingDecodes with
  | [] => (s, [])
  | c :: rest =>
    ({ s with pendingDecodes := rest, currentSource := some c }, [c])

/-- A pending decodeAudioData rejects: the catch block of playNext marks
playback inactive and retries playNext on a nonempty queue. -/
def decodeFail (s : PlayerState) : PlayerState × List Chunk :=
  match s.pendingDecodes with
  | [] => (s, [])
  | _ :: rest =>
    let s1 : PlayerState := { s with pendingDecodes := rest, isPlaying := false }
    if s1.audioQueue = [] then (s1, []) else (playNextStart s1, [])

/-- Method addChunk: push the decoded chunk, then start playNext if idle. -/
def addChunk (data : Chunk) (s : PlayerState) : PlayerState × List Chunk :=
  let s1 : PlayerState := { s with audioQueue := s.audioQueue ++ [data] }
  if s.isPlaying then (s1, []) else (playNextStart s1, [])

/-- The source.onended callback: clear the current source, then start
playNext on a nonempty queue, else mark playback inactive. -/
def onEnded (s : PlayerState) : PlayerState × List Chunk :=
  let s1 : PlayerState := { s with currentSource := none }
  if s1.audioQueue = [] then ({ s1 with isPlaying := false }, [])
  else (playNextStart s1, [])

/-- Method stop: stop and clear the current source, empty the queue and
mark playback inactive.  Nothing is handed to the audio output, but a
pending decodeAudioData stays in flight. -/
def stopPlayer (s : PlayerState) : PlayerState × List Chunk :=
  ({ s with audioQueue := [], isPlaying := false, currentSource := none }, [])

/-- The externally triggered player transitions: an incoming chunk, a
decode resolution or rejection, the end of the current source, and a stop
request. -/
inductive PlayerEvent
  | add (data : Chunk)
  | decodeOk
  | decodeFail
  | ended
  | stop

/-- Dispatch one player event. -/
def stepPlayer (e : PlayerEvent) (s : PlayerState) : PlayerState × List Chunk :=
  match e with
  | .add d => addChunk d s
  | .decodeOk => decodeOk s
  | .decodeFail => decodeFail s
  | .ended => onEnded s
  | .stop => stopPlayer s

/-- Run a sequence of player events, collecting every buffer handed to the
audio output. -/
def runPlayer : List PlayerEvent → PlayerState → PlayerState × List Chunk
  | [], s => (s, [])
  | e :: evs, s =>
    ((runPlayer evs (stepPlayer e s).1).1,
     (stepPlayer e s).2 ++ (runPlayer evs (stepPlayer e s).1).2)

/-- The chunk payloads added by a sequence of events, in order. -/
def addedData : List PlayerEvent → List Chunk
  | [] => []
  | .add d :: evs => d :: addedData evs
  | .decodeOk :: evs => addedData evs
  | .decodeFail :: evs => addedData evs
  | .ended :: evs => addedData evs
  | .stop :: evs => addedData evs

/-! WebSocket server messages and the client message handler
(types.ts and the handleMessage switch of the wsClient hook). -/

/-- The ui_state mode values. -/
inductive UiMode
  | IDLE
  | TEACH
  | QUIZ

/-- Quiz results payload of a ui_state message. -/
structure QuizResults where
  passed : ℤ
  total : ℤ
  score : ℚ
  missed : List String
  details : List (String × List Bool)

/-- Payload of a ui_state message. -/
structure UiStatePayload where
  mode : UiMode
  targetSign : Option String
  prediction : Option String
  confidence : Option ℚ
  suggestion : Option String
  streak : Option ℤ
  teachingProgress : Option ℤ
  quizCountdown : Option ℤ
  quizTry : Option ℤ
  quizResults : Option QuizResults
  timestamp : ℤ

/-- Server-to-client message tags, as in the ServerMessage union. -/
inductive ServerMessage
  | asrPartial (text : String) (timestamp : ℤ)
  | asrFinal (text : String) (timestamp : ℤ)
  | agentTextPartial (text : String) (timestamp : ℤ)
  | agentTextFinal (text : String) (timestamp : ℤ)
  | ttsAudioChunk (data : Chunk) (timestamp : ℤ)
  | ttsStop
  | uiState (payload : UiStatePayload)
  | errorMsg (message : String) (code : Option String) (timestamp : ℤ)

/-- The client state touched by the handleMessage switch: the two displayed
texts, the last ui_state, and the audio player singleton. -/
structure ClientState where
  agentText : String
  userTranscript : String
  uiState : Option UiStatePayload
  player : PlayerState

/-- The handleMessage switch of the wsClient hook; the second component
lists the buffers the audio player handed to the audio output while
handling the message. -/
def handleMessage (s : ClientState) : ServerMessage → ClientState × List Chunk
  | .asrPartial t _ => ({ s with userTranscript := t }, [])
  | .asrFinal t _ => ({ s with userTranscript := t }, [])
  | .agentTextPartial t _ => ({ s with agentText := s.agentText ++ t }, [])
  | .agentTextFinal t _ => ({ s with agentText := t }, [])
  | .ttsAudioChunk d _ =>
    ({ s with player := (addChunk d s.player).1 }, (addChunk d s.player).2)
  | .ttsStop => ({ s with player := (stopPlayer s.player).1 }, (stopPlayer s.player).2)
  | .uiState u => ({ s with uiState := some u }, [])
  | .errorMsg _ _ _ => (s, [])

/-! Float-to-PCM16 conversion (AudioCapture.flushBuffer in
audioCapture.ts). -/

/-- The per-sample conversion of flushBuffer: clamp to the unit range, then
scale negatives by 0x8000 and non-negatives by 0x7FFF. -/
noncomputable def pcm16Sample (v : ℝ) : ℝ :=
  let s := max (-1) (min 1 v)
  if s < 0 then s * 0x8000 else s * 0x7FFF

/-! Facts about the player trace semantics. -/

lemma runPlayer_cons (e : PlayerEvent) (evs : List PlayerEvent) (s : PlayerState) :
    runPlayer (e :: evs) s =
      ((runPlayer evs (stepPlayer e s).1).1,
       (stepPlayer e s).2 ++ (runPlayer evs (stepPlayer e s).1).2) :=
  rfl

lemma playNextStart_bytes (s : PlayerState) :
    (playNextStart s).pendingDecodes.flatten ++ (playNextStart s).audioQueue.flatten =
      s.pendingDecodes.flatten ++ s.audioQueue.flatten := by
  unfold playNextStart
  split
  · simp
  · simp [List.flatten_append]

lemma sub_drop_chunk {x : List Nat} (c : List Nat) {l : List Nat}
    (h : x.Sublist l) : x.Sublist (c ++ l) :=
  h.trans (List.sublist_append_right c l)

lemma sub_drop_mid {x p q r : List Nat} (h : x.Sublist (p ++ r)) :
    x.Sublist (p ++ (q ++ r)) :=
  h.trans (List.Sublist.append_left (List.sublist_append_right q r) p)

lemma runPlayer_bytes_sublist (evs : List PlayerEvent) :
    ∀ s : PlayerState,
      ((runPlayer evs s).2.flatten).Sublist
        ((s.pendingDecodes.flatten ++ s.audioQueue.flatten) ++ (addedData evs).flatten) := by
  induction evs with
  | nil =>
    intro s
    exact List.nil_sublist _
  | cons e evs ih =>
    intro s
    cases e with
    | add d =>
      by_cases hp : s.isPlaying = true
      · have hstep : stepPlayer (.add d) s =
            ({ s with audioQueue := s.audioQueue ++ [d] }, []) := by
          simp [stepPlayer, addChunk, hp]
        rw [runPlayer_cons, hstep]
        have ihs := ih { s with audioQueue := s.audioQueue ++ [d] }
        simp [List.flatten_append, List.append_assoc] at ihs
        simpa [addedData, List.flatten_append, List.append_assoc] using ihs
      · have hstep : stepPlayer (.add d) s =
            (playNextStart { s with audioQueue := s.audioQueue ++ [d] }, []) := by
          simp [stepPlayer, addChunk, hp]
        rw [runPlayer_cons, hstep]
        have ihs := ih (playNextStart { s with audioQueue := s.audioQueue ++ [d] })
        rw [playNextStart_bytes] at ihs
        simp [List.flatten_append, List.append_assoc] at ihs
        simpa [addedData, List.flatten_append, List.append_assoc] using ihs
    | decodeOk =>
      cases hP : s.pendingDecodes with
      | nil =>
        have hstep : stepPlayer .decodeOk s = (s, []) := by
          simp [stepPlayer, decodeOk, hP]
        rw [runPlayer_cons, hstep]
        have ihs := ih s
        simpa [addedData, hP] using ihs
      | cons c rest =>
        have hstep : stepPlayer .decodeOk s =
            ({ s with pendingDecodes := rest, currentSource := some c }, [c]) := by
          simp [stepPlayer, decodeOk, hP]
        rw [runPlayer_cons, hstep]
        have ihs := ih { s with pendingDecodes := rest, currentSource := some c }
        simp [List.append_assoc] at ihs
        have h2 := List.Sublist.append_left ihs c
        simpa [addedData, hP, List.append_assoc] using h2
    | decodeFail =>
      cases hP : s.pendingDecodes with
      | nil =>
        have hstep : stepPlayer .decodeFail s = (s, []) := by
          simp [stepPlayer, decodeFail, hP]
        rw [runPlayer_cons, hstep]
        have ihs := ih s
        simpa [addedData, hP] using ihs
      | cons c rest =>
        by_cases hq : s.audioQueue = []
        · have hstep : stepPlayer .decodeFail s =
              ({ s with pendingDecodes := rest, isPlaying := false }, []) := by
            simp [stepPlayer, decodeFail, hP, hq]
          rw [runPlayer_cons, hstep]
          have ihs := ih { s with pendingDecodes := rest, isPlaying := false }
          simp [List.append_assoc] at ihs
          have h2 := sub_drop_chunk c ihs
          simpa [addedData, hP, List.append_assoc] using h2
        · have hstep : stepPlayer .decodeFail s =
              (playNextStart { s with pendingDecodes := rest, isPlaying := false }, []) := by
            simp [stepPlayer, decodeFail, hP, hq]
          rw [runPlayer_cons, hstep]
          have ihs := ih (playNextStart { s with pendingDecodes := rest, isPlaying := false })
          rw [playNextStart_bytes] at ihs
          simp [List.append_assoc] at ihs
          have h2 := sub_drop_chunk c ihs
          simpa [addedData, hP, List.append_assoc] using h2
    | ended =>
      by_cases hq : s.audioQueue = []
      · have hstep : stepPlayer .ended s =
            ({ s with currentSource := none, isPlaying := false }, []) := by
          simp [stepPlayer, onEnded, hq]
        rw [runPlayer_cons, hstep]
        have ihs := ih { s with currentSource := none, isPlaying := false }
        simpa [addedData] using ihs
      · have hstep : stepPlayer .ended s =
            (playNextStart { s with currentSource := none }, []) := by
          simp [stepPlayer, onEnded, hq]
        rw [runPlayer_cons, hstep]
        have ihs := ih (playNextStart { s with currentSource := none })
        rw [playNextStart_bytes] at ihs
        simpa [addedData] using ihs
    | stop =>
      have hstep : stepPlayer .stop s =
          ({ s with audioQueue := [], isPlaying := false, currentSource := none }, []) :=
        rfl
      rw [runPlayer_cons, hstep]
      have ihs := ih { s with audioQueue := [], isPlaying := false, currentSource := none }
      simp [List.append_assoc] at ihs
      have h2 := sub_drop_mid (q := s.audioQueue.flatten) ihs
      simpa [addedData, List.append_assoc] using h2

/-! Claim C2: handling tts_stop empties the queue, stops playback and
clears the source; but the stop cannot cancel a decodeAudioData call that
playNext already has in flight, and that continuation still starts
playback of pre-stop chunks, so the no-replay part of the claim holds only
when no decode is pending at the stop. -/

/-- The initial player state: empty queue, idle, no source, no pending
decode. -/
def idlePlayer : PlayerState :=
  { audioQueue := [], isPlaying := false, currentSource := none, pendingDecodes := [] }

/-- A one-byte audio chunk used in the counterexample trace. -/
def raceChunk : Chunk := [7]

/-- Counterexample to C2 as stated: from the idle player, a chunk is added
(playNext clears the queue and awaits its decode; nothing has been played),
then a tts_stop is handled, leaving the queue empty and the source
cleared; yet when the pending decode then resolves, its continuation hands
the pre-stop chunk to the audio output and re-sets the current source,
although no chunk was added after the stop. -/
theorem ttsStop_decode_race_cex :
    (stepPlayer (.add raceChunk) idlePlayer).2 = [] ∧
    (stepPlayer .stop (stepPlayer (.add raceChunk) idlePlayer).1).2 = [] ∧
    (stepPlayer .stop (stepPlayer (.add raceChunk) idlePlayer).1).1.audioQueue = [] ∧
    (stepPlayer .stop (stepPlayer (.add raceChunk) idlePlayer).1).1.currentSource = none ∧
    addedData [PlayerEvent.decodeOk] = [] ∧
    (runPlayer [PlayerEvent.decodeOk]
      (stepPlayer .stop (stepPlayer (.add raceChunk) idlePlayer).1).1).2 = [raceChunk] ∧
    (runPlayer [PlayerEvent.decodeOk]
      (stepPlayer .stop (stepPlayer (.add raceChunk) idlePlayer).1).1).1.currentSource =
      some raceChunk := by
  exact ⟨rfl, rfl, rfl, rfl, rfl, rfl, rfl⟩

/-- C2 amended: after the message handler processes tts_stop, the player
queue is empty, playback is inactive and the current source is cleared, so
a subsequently received utterance starts from an empty queue; and provided
no decodeAudioData call is pending when the stop is handled, every byte
the audio output receives during any later event sequence comes from
chunks added after the stop, so no chunk of the interrupted utterance
queued but not yet played is played afterwards.  (With a decode pending,
the counterexample above shows pre-stop chunks can still be played.) -/
theorem ttsStop_clears_and_isolates (s : ClientState) (evs : List PlayerEvent)
    (h : s.player.pendingDecodes = []) :
    (handleMessage s .ttsStop).1.player.audioQueue = [] ∧
    (handleMessage s .ttsStop).1.player.isPlaying = false ∧
    (handleMessage s .ttsStop).1.player.currentSource = none ∧
    ((runPlayer evs (handleMessage s .ttsStop).1.player).2.flatten).Sublist
      ((addedData evs).flatten) := by
  refine ⟨rfl, rfl, rfl, ?_⟩
  have hinv := runPlayer_bytes_sublist evs (handleMessage s .ttsStop).1.player
  simpa [handleMessage, stopPlayer, h] using hinv

/-- An empty client state for the witness. -/
def emptyClient : ClientState :=
  { agentText := "", userTranscript := "", uiState := none, player := idlePlayer }

/-- Witness for the amended C2 at a concrete client state and a concrete
post-stop trace that adds and plays one new chunk. -/
theorem ttsStop_clears_and_isolates_witness :
    (handleMessage emptyClient .ttsStop).1.player.audioQueue = [] ∧
    (handleMessage emptyClient .ttsStop).1.player.isPlaying = false ∧
    (handleMessage emptyClient .ttsStop).1.player.currentSource = none ∧
    ((runPlayer [PlayerEvent.add [3], PlayerEvent.decodeOk]
        (handleMessage emptyClient .ttsStop).1.player).2.flatten).Sublist
      ((addedData [PlayerEvent.add [3], PlayerEvent.decodeOk]).flatten) :=
  ttsStop_clears_and_isolates emptyClient [PlayerEvent.add [3], PlayerEvent.decodeOk] rfl

/-! Claim C7: each asr_partial overwrites the displayed transcript. -/

/-- C7: handling an asr_partial message with text t makes the displayed user
transcript exactly t, whatever was displayed before. -/
theorem asrPartial_overwrites (s : ClientState) (t : String) (ts : ℤ) :
    (handleMessage s (.asrPartial t ts)).1.userTranscript = t :=
  rfl

/-! Claim C9: the PCM16 conversion never overflows and maps the endpoints
exactly. -/

/-- C9: every converted sample lies in the Int16 range, with minus one
mapping to minus 32768 and one mapping to 32767. -/
theorem pcm16Sample_in_int16_range (v : ℝ) :
    (-32768 ≤ pcm16Sample v ∧ pcm16Sample v ≤ 32767) ∧
    pcm16Sample (-1) = -32768 ∧ pcm16Sample 1 = 32767 := by
  refine ⟨?_, ?_, ?_⟩
  · have h1 : (-1 : ℝ) ≤ max (-1) (min 1 v) := le_max_left _ _
    have h2 : max (-1 : ℝ) (min 1 v) ≤ 1 := max_le (by norm_num) (min_le_left _ _)
    simp only [pcm16Sample]
    split_ifs with h <;> constructor <;> nlinarith
  · norm_num [pcm16Sample]
  · norm_num [pcm16Sample]

/-! ASL classifier (aslClassifier.ts).  The TensorFlow model is an external
collaborator: its output probability vector is a parameter of classify.
Probabilities are modelled as rationals. -/

/-- The 26 ASL alphabet labels. -/
def ASL_LABELS : List String :=
  ["A", "B", "C", "D", "E", "F", "G", "H", "I", "J",
   "K", "L", "M", "N", "O", "P", "Q", "R", "S", "T",
   "U", "V", "W", "X", "Y", "Z"]

/-- The ClassificationResult record. -/
structure ClassificationResult where
  prediction : Option String
  confidence : ℚ
  topK : List (String × ℚ)
  allProbabilities : List (String × ℚ)
deriving DecidableEq

/-- The default result used when classification is not possible. -/
def defaultResult : ClassificationResult :=
  { prediction := none, confidence := 0, topK := [], allProbabilities := [] }

/-- The 63 wrist-relative scale-normalized coordinates built by
preprocessLandmarks once the 21-point check has passed. -/
noncomputable def preprocessBody (landmarks : List Landmark) : List ℝ :=
  let wrist := lget landmarks 0
  let middleMcp := lget landmarks 9
  let scale := orD (Real.sqrt ((middleMcp.x - wrist.x) ^ 2 +
    (middleMcp.y - wrist.y) ^ 2 + (middleMcp.z - wrist.z) ^ 2)) 1
  (landmarks.map (fun p =>
    [(p.x - wrist.x) / scale, (p.y - wrist.y) / scale, p.z / scale])).flatten

/-- Method preprocessLandmarks: null unless exactly 21 points are given. -/
noncomputable def preprocessLandmarks (landmarks : List Landmark) : Option (List ℝ) :=
  if landmarks.length ≠ 21 then none
  else some (preprocessBody landmarks)

/-- The label-confidence pairing built in classify: each probability with
the label at its index (an out-of-range index gives the empty string, as
JavaScript undefined). -/
def indexedProbs (probs : List ℚ) : List (String × ℚ) :=
  probs.enum.map (fun q => (ASL_LABELS.getD q.1 "", q.2))

/-- The JS sort comparator (a, b) => b.confidence - a.confidence as the
may-precede test of a stable sort. -/
def confDescB (a b : String × ℚ) : Bool :=
  decide (b.2 ≤ a.2)

/-- Non-increasing confidence, as a relation on result entries. -/
def ConfDesc (a b : String × ℚ) : Prop :=
  b.2 ≤ a.2

/-- The result assembly at the end of classify: sort by descending
confidence, keep the first five entries, and read prediction and
confidence off the first entry with JS falsy-to-null coercion. -/
def classifyResult (probs : List ℚ) : ClassificationResult :=
  let indexed := (indexedProbs probs).mergeSort confDescB
  let topK := indexed.take 5
  { prediction :=
      match topK.head? with
      | none => none
      | some e => if e.1 = "" then none else some e.1
    confidence :=
      match topK.head? with
      | none => 0
      | some e => if e.2 = 0 then 0 else e.2
    topK := topK
    allProbabilities := indexed }

/-- Method classify: the default result when the model is not ready or
preprocessing rejects the landmarks, else the assembled result. -/
noncomputable def classify (isReady : Bool) (landmarks : List Landmark) (probs : List ℚ) :
    ClassificationResult :=
  if !isReady then defaultResult
  else
    match preprocessLandmarks landmarks with
    | none => defaultResult
    | some _ => classifyResult probs

/-! Facts about the classifier. -/

lemma confDescB_trans (a b c : String × ℚ) :
    confDescB a b = true → confDescB b c = true → confDescB a c = true := by
  simp only [confDescB, decide_eq_true_eq]
  exact fun h1 h2 => h2.trans h1

lemma confDescB_total (a b : String × ℚ) :
    (confDescB a b || confDescB b a) = true := by
  simp only [confDescB, Bool.or_eq_true, decide_eq_true_eq]
  exact le_total b.2 a.2

lemma sorted_indexed (probs : List ℚ) :
    ((indexedProbs probs).mergeSort confDescB).Pairwise ConfDesc := by
  have h := List.sorted_mergeSort confDescB_trans confDescB_total (indexedProbs probs)
  exact h.imp (fun hab => of_decide_eq_true hab)

lemma length_indexed (probs : List ℚ) :
    ((indexedProbs probs).mergeSort confDescB).length = probs.length := by
  rw [(List.mergeSort_perm (indexedProbs probs) confDescB).length_eq]
  simp [indexedProbs, List.enum_length]

lemma mem_indexed_label {probs : List ℚ} {e : String × ℚ}
    (h : e ∈ indexedProbs probs) : ∃ i, i < probs.length ∧ e.1 = ASL_LABELS.getD i "" := by
  obtain ⟨q, hq, he⟩ := List.mem_map.mp h
  refine ⟨q.1, ?_, by rw [← he]⟩
  have h1 : q.1 ∈ probs.enum.map Prod.fst := List.mem_map_of_mem Prod.fst hq
  rw [List.enum_map_fst] at h1
  exact List.mem_range.mp h1

lemma label_ne_empty : ∀ i, i < 26 → ASL_LABELS.getD i "" ≠ "" := by decide

lemma classify_ready_eq {l : List Landmark} (h : l.length = 21) (p : List ℚ) :
    classify true l p = classifyResult p := by
  simp [classify, preprocessLandmarks, h]

/-! Claim C6: shape of the classification result. -/

/-- C6: with the model ready and a 21-point frame, for any 26-entry
probability vector from the model the topK list has at most five entries
ordered by non-increasing confidence, and the prediction and confidence
fields equal the label and confidence of the first topK entry; and when
classification is not possible (model not ready, or landmark count other
than 21) the result is the default: null prediction, zero confidence,
empty topK. -/
theorem classify_topK_spec (l : List Landmark) (p : List ℚ)
    (h : l.length = 21) (g : p.length = 26) :
    (classify true l p).topK.length ≤ 5 ∧
    (classify true l p).topK.Pairwise ConfDesc ∧
    (∃ e, (classify true l p).topK.head? = some e ∧
      (classify true l p).prediction = some e.1 ∧
      (classify true l p).confidence = e.2) ∧
    (∀ q : List ℚ, classify false l q = defaultResult) ∧
    (∀ m : List Landmark, m.length ≠ 21 → classify true m p = defaultResult) := by
  rw [classify_ready_eq h p]
  have hlen : ((indexedProbs p).mergeSort confDescB).length = 26 := by
    rw [length_indexed, g]
  obtain ⟨e, r, her⟩ : ∃ e r, (indexedProbs p).mergeSort confDescB = e :: r := by
    cases hm : (indexedProbs p).mergeSort confDescB with
    | nil => rw [hm] at hlen; simp at hlen
    | cons e r => exact ⟨e, r, rfl⟩
  have hlabel : e.1 ≠ "" := by
    have hmem : e ∈ (indexedProbs p).mergeSort confDescB := by
      rw [her]; exact List.mem_cons_self e r
    have hmem2 : e ∈ indexedProbs p :=
      (List.mergeSort_perm (indexedProbs p) confDescB).mem_iff.mp hmem
    obtain ⟨i, hi, he⟩ := mem_indexed_label hmem2
    rw [he]
    exact label_ne_empty i (by omega)
  refine ⟨?_, ?_, ?_, ?_, ?_⟩
  · show (((indexedProbs p).mergeSort confDescB).take 5).length ≤ 5
    rw [List.length_take]
    exact min_le_left _ _
  · exact List.Pairwise.sublist (List.take_sublist 5 _) (sorted_indexed p)
  · refine ⟨e, ?_, ?_, ?_⟩
    · show (((indexedProbs p).mergeSort confDescB).take 5).head? = some e
      rw [her, List.take_succ_cons]
      rfl
    · show (match (((indexedProbs p).mergeSort confDescB).take 5).head? with
        | none => none
        | some e => if e.1 = "" then none else some e.1) = some e.1
      rw [her, List.take_succ_cons]
      simp [hlabel]
    · show (match (((indexedProbs p).mergeSort confDescB).take 5).head? with
        | none => (0 : ℚ)
        | some e => if e.2 = 0 then 0 else e.2) = e.2
      rw [her, List.take_succ_cons]
      by_cases hz : e.2 = 0 <;> simp [hz]
  · intro q
    rfl
  · intro m hm
    simp [classify, preprocessLandmarks, hm]

/-- A generic valid frame for the classifier witness. -/
def constFrame4 : List Landmark :=
  List.replicate 21 ⟨1, 1, 0⟩

/-- A 26-entry probability vector. -/
def probs26 : List ℚ :=
  List.replicate 26 0

/-- Witness for C6 at a concrete frame and probability vector. -/
theorem classify_topK_spec_witness :
    constFrame4.length = 21 ∧ probs26.length = 26 ∧
    ((classify true constFrame4 probs26).topK.length ≤ 5 ∧
    (classify true constFrame4 probs26).topK.Pairwise ConfDesc ∧
    (∃ e, (classify true constFrame4 probs26).topK.head? = some e ∧
      (classify true constFrame4 probs26).prediction = some e.1 ∧
      (classify true constFrame4 probs26).confidence = e.2) ∧
    (∀ q : List ℚ, classify false constFrame4 q = defaultResult) ∧
    (∀ m : List Landmark, m.length ≠ 21 → classify true m probs26 = defaultResult)) :=
  ⟨rfl, rfl, classify_topK_spec constFrame4 probs26 rfl rfl⟩

end SignConnect
